import Mathlib

/-!
Verification development for the OCR-System backend (NestJS + Google Sheets).

The source consists of a controller (`google-sheets.controller.ts`) and a
service (`google-sheets.service.ts`).  The service receives a submission
`{ username, imageType, imageData }` together with a folder-type selector,
validates it, finds or creates a spreadsheet titled
`${USERNAME_UPPERCASED}_MainSheet` in the selected Drive folder, ensures a
sheet tab named after `imageType` exists (creating it and writing a header
row on first use), and appends the submitted records as rows.

The remote Google Sheets / Drive API is modelled as an explicit state
(`RemoteState`) together with a trace of issued remote calls and a failure
schedule (`fail : Nat → Bool`) deciding, per call index, whether the remote
call throws.  Every service function is translated directly from the
TypeScript source, including its try/catch wrapping of error messages.
-/

namespace OCR

/-- A scalar cell value as it appears in a submitted record. -/
inductive Value where
  | vInt (n : Int)
  | vStr (s : String)
deriving DecidableEq, Repr

/-- A flat record: ordered field-name/value pairs (JS object key order is
insertion order, so a list preserves the encounter order of keys). -/
abbrev Rec := List (String × Value)

/-- A row of cell values. -/
abbrev Row := List Value

/-- A NestJS `HttpException`: a response message and an HTTP status code. -/
structure HttpException where
  message : String
  status : Nat
deriving DecidableEq, Repr

/-- The success payload returned by `processSheetData`. -/
structure ProcessSheetResponse where
  statusCode : Nat
  message : String
deriving DecidableEq, Repr

/-- Decidable equality for remote results, used by concrete witnesses. -/
instance {ε α : Type} [DecidableEq ε] [DecidableEq α] : DecidableEq (Except ε α)
  | .error a, .error b =>
      if h : a = b then .isTrue (by rw [h])
      else .isFalse (by intro hc; cases hc; exact h rfl)
  | .error _, .ok _ => .isFalse (by intro hc; cases hc)
  | .ok _, .error _ => .isFalse (by intro hc; cases hc)
  | .ok a, .ok b =>
      if h : a = b then .isTrue (by rw [h])
      else .isFalse (by intro hc; cases hc; exact h rfl)

/-- The `imageData` field of a request body: it may be absent, present but
not an array, or an array of records. -/
inductive ImageDataField where
  | missing
  | notArray
  | arr (l : List Rec)
deriving DecidableEq, Repr

/-- The request body (`AppendToSheet` DTO).  `none` models an absent field. -/
structure AppendToSheet where
  username : Option String
  imageType : Option String
  imageData : ImageDataField
deriving DecidableEq, Repr

/-- `username.toUpperCase()`: uppercase each character (modelled on the
character list so that it evaluates by reduction). -/
def toUpperStr (s : String) : String := ⟨s.data.map Char.toUpper⟩

/-- JS falsiness of an optional string: `undefined` and `""` are falsy. -/
def strFalsy : Option String → Bool
  | none => true
  | some s => s == ""

/-- The `Array.isArray(imageData) && imageData.length` check: returns the
records when `imageData` is a non-empty array, `none` otherwise. -/
def validData : ImageDataField → Option (List Rec)
  | .arr (r :: rs) => some (r :: rs)
  | _ => none

/-- A spreadsheet file as stored in the remote Drive: id, name, parent
folder, and its sheet tabs (tab title together with its rows). -/
structure SpreadsheetFile where
  id : String
  name : String
  folderId : String
  tabs : List (String × List Row)
deriving DecidableEq, Repr

/-- The remote Drive/Sheets state: the stored files and a counter used to
mint fresh spreadsheet ids. -/
structure RemoteState where
  files : List SpreadsheetFile
  nextId : Nat
deriving DecidableEq, Repr

/-- One remote API call, as recorded in the trace. -/
inductive RemoteCall where
  | filesList (folderId title : String)
  | filesCreate (title folderId : String)
  | spreadsheetsGet (sid : String)
  | addSheet (sid title : String)
  | valuesAppend (sid sheetName : String) (values : List Row)
deriving DecidableEq, Repr

/-- Execution state threaded through the service: the remote state, the
trace of issued calls in order, and the index of the next call (used by the
failure schedule). -/
structure Exec where
  remote : RemoteState
  trace : List RemoteCall
  callIdx : Nat
deriving DecidableEq, Repr

/-- Record that a remote call was issued. -/
def issue (c : RemoteCall) (e : Exec) : Exec :=
  { e with trace := e.trace ++ [c], callIdx := e.callIdx + 1 }

/-- The message carried by an injected remote failure. -/
def remoteErr : String := "remote error"

/-- The Drive query `'folderId' in parents and name = 'title' and
mimeType = 'application/vnd.google-apps.spreadsheet'`. -/
def matchesQuery (folderId title : String) (f : SpreadsheetFile) : Bool :=
  f.folderId == folderId && f.name == title

/-- Remote `drive.files.list`: returns the files matching the query. -/
def apiFilesList (fail : Nat → Bool) (folderId title : String) (e : Exec) :
    Except String (List SpreadsheetFile) × Exec :=
  let e1 := issue (.filesList folderId title) e
  if fail e.callIdx then (.error remoteErr, e1)
  else (.ok (e.remote.files.filter (matchesQuery folderId title)), e1)

/-- The id the remote mints for the next created spreadsheet. -/
def freshId (st : RemoteState) : String := "sid" ++ toString st.nextId

/-- Remote `drive.files.create`: creates an empty spreadsheet with a fresh
id in the given folder and returns the id. -/
def apiFilesCreate (fail : Nat → Bool) (title folderId : String) (e : Exec) :
    Except String String × Exec :=
  let e1 := issue (.filesCreate title folderId) e
  if fail e.callIdx then (.error remoteErr, e1)
  else
    let sid := freshId e.remote
    (.ok sid,
     { e1 with remote :=
        { files := e.remote.files ++ [⟨sid, title, folderId, []⟩],
          nextId := e.remote.nextId + 1 } })

/-- Look a file up by id (first match). -/
def findFile (st : RemoteState) (sid : String) : Option SpreadsheetFile :=
  st.files.find? (fun f => f.id == sid)

/-- Remote `sheets.spreadsheets.get`: returns the tab titles of the
spreadsheet (an empty list when the id resolves to nothing, mirroring the
`response.data.sheets?.map(...) || []` fallback). -/
def apiSpreadsheetsGet (fail : Nat → Bool) (sid : String) (e : Exec) :
    Except String (List String) × Exec :=
  let e1 := issue (.spreadsheetsGet sid) e
  if fail e.callIdx then (.error remoteErr, e1)
  else
    match findFile e.remote sid with
    | some f => (.ok (f.tabs.map Prod.fst), e1)
    | none => (.ok [], e1)

/-- Per-file action of adding an empty tab to the spreadsheet `sid`. -/
def tabAdder (sid title : String) (f : SpreadsheetFile) : SpreadsheetFile :=
  if f.id == sid then { f with tabs := f.tabs ++ [(title, [])] } else f

/-- Add an empty tab with the given title to the spreadsheet `sid`. -/
def addTab (st : RemoteState) (sid title : String) : RemoteState :=
  { st with files := st.files.map (tabAdder sid title) }

/-- Remote `sheets.spreadsheets.batchUpdate` with an `addSheet` request. -/
def apiAddSheet (fail : Nat → Bool) (sid title : String) (e : Exec) :
    Except String Unit × Exec :=
  let e1 := issue (.addSheet sid title) e
  if fail e.callIdx then (.error remoteErr, e1)
  else (.ok (), { e1 with remote := addTab e.remote sid title })

/-- Per-tab action of appending rows to the tab named `sheetName`. -/
def tabAppend (sheetName : String) (values : List Row)
    (p : String × List Row) : String × List Row :=
  if p.1 == sheetName then (p.1, p.2 ++ values) else p

/-- Per-file action of appending rows to tab `sheetName` of file `sid`. -/
def rowAppender (sid sheetName : String) (values : List Row)
    (f : SpreadsheetFile) : SpreadsheetFile :=
  if f.id == sid then { f with tabs := f.tabs.map (tabAppend sheetName values) }
  else f

/-- Append rows after the existing content of tab `sheetName` of `sid`. -/
def appendRows (st : RemoteState) (sid sheetName : String) (values : List Row) :
    RemoteState :=
  { st with files := st.files.map (rowAppender sid sheetName values) }

/-- Remote `sheets.spreadsheets.values.append` on range `sheetName!A1`. -/
def apiValuesAppend (fail : Nat → Bool) (sid sheetName : String)
    (values : List Row) (e : Exec) : Except String Unit × Exec :=
  let e1 := issue (.valuesAppend sid sheetName values) e
  if fail e.callIdx then (.error remoteErr, e1)
  else (.ok (), { e1 with remote := appendRows e.remote sid sheetName values })

/-- `searchForSpreadsheet`: lists files matching folder, title and
spreadsheet MIME type and returns the first match (`files?.[0]`); a remote
failure is wrapped as an HTTP 500 naming the title. -/
def searchForSpreadsheet (fail : Nat → Bool) (title folderId : String)
    (e : Exec) : Except HttpException (Option SpreadsheetFile) × Exec :=
  match apiFilesList fail folderId title e with
  | (.error msg, e1) =>
      (.error ⟨"Failed to search for spreadsheet \x27" ++ title ++ "\x27: " ++ msg, 500⟩, e1)
  | (.ok files, e1) => (.ok files.head?, e1)

/-- `createSpreadsheet`: creates the spreadsheet in the folder and returns
its id; a remote failure is wrapped as an HTTP 500 naming the title. -/
def createSpreadsheet (fail : Nat → Bool) (title folderId : String)
    (e : Exec) : Except HttpException String × Exec :=
  match apiFilesCreate fail title folderId e with
  | (.error msg, e1) =>
      (.error ⟨"Failed to create spreadsheet \x27" ++ title ++ "\x27: " ++ msg, 500⟩, e1)
  | (.ok sid, e1) => (.ok sid, e1)

/-- `findOrCreateSpreadsheet`: search first, create when absent; any
`HttpException` from either step is caught and rewrapped as an HTTP 500
`Error finding or creating spreadsheet: ...`. -/
def findOrCreateSpreadsheet (fail : Nat → Bool) (title folderId : String)
    (e : Exec) : Except HttpException String × Exec :=
  match searchForSpreadsheet fail title folderId e with
  | (.error ex, e1) =>
      (.error ⟨"Error finding or creating spreadsheet: " ++ ex.message, 500⟩, e1)
  | (.ok (some f), e1) => (.ok f.id, e1)
  | (.ok none, e1) =>
      match createSpreadsheet fail title folderId e1 with
      | (.error ex, e2) =>
          (.error ⟨"Error finding or creating spreadsheet: " ++ ex.message, 500⟩, e2)
      | (.ok sid, e2) => (.ok sid, e2)

/-- `getSheetNames`: the tab titles of the spreadsheet; a remote failure is
wrapped as an HTTP 500. -/
def getSheetNames (fail : Nat → Bool) (sid : String) (e : Exec) :
    Except HttpException (List String) × Exec :=
  match apiSpreadsheetsGet fail sid e with
  | (.error msg, e1) => (.error ⟨"Failed to get sheet names: " ++ msg, 500⟩, e1)
  | (.ok names, e1) => (.ok names, e1)

/-- `createSheet`: adds a tab titled `sheetTitle`; a remote failure is
wrapped as an HTTP 500 naming the tab. -/
def createSheet (fail : Nat → Bool) (sid sheetTitle : String) (e : Exec) :
    Except HttpException Unit × Exec :=
  match apiAddSheet fail sid sheetTitle e with
  | (.error msg, e1) =>
      (.error ⟨"Failed to create sheet \x27" ++ sheetTitle ++ "\x27: " ++ msg, 500⟩, e1)
  | (.ok _, e1) => (.ok (), e1)

/-- `appendDataToSheet`: appends `values` to tab `sheetName`; a remote
failure is wrapped as an HTTP 500 naming the tab. -/
def appendDataToSheet (fail : Nat → Bool) (sid sheetName : String)
    (values : List Row) (e : Exec) : Except HttpException Unit × Exec :=
  match apiValuesAppend fail sid sheetName values e with
  | (.error msg, e1) =>
      (.error ⟨"Failed to append data to sheet \x27" ++ sheetName ++ "\x27: " ++ msg, 500⟩, e1)
  | (.ok _, e1) => (.ok (), e1)

/-- `extractHeaders`: `Object.keys(data[0])`.  On an empty list, `data[0]`
is `undefined` and `Object.keys` throws, caught and wrapped as an HTTP 500. -/
def extractHeaders (data : List Rec) : Except HttpException (List String) :=
  match data with
  | [] => .error ⟨"Failed to extract headers from the data", 500⟩
  | r :: _ => .ok (r.map Prod.fst)

/-- `mapDataToValues`: `data.map((row) => Object.values(row))`, one row of
values per record in order (total; its catch branch is dead code). -/
def mapDataToValues (data : List Rec) : List Row :=
  data.map (fun r => r.map Prod.snd)

/-- The body of the `try` block of `processSheetData`: find or create the
spreadsheet, list tab names, create the tab and write the header row when
the tab named `t` is absent, then append the data rows. -/
def processBody (fail : Nat → Bool) (u t : String) (l : List Rec)
    (folderId : String) (e : Exec) :
    Except HttpException ProcessSheetResponse × Exec :=
  let title := toUpperStr u ++ "_MainSheet"
  match findOrCreateSpreadsheet fail title folderId e with
  | (.error ex, e1) => (.error ex, e1)
  | (.ok sid, e1) =>
    match getSheetNames fail sid e1 with
    | (.error ex, e2) => (.error ex, e2)
    | (.ok names, e2) =>
      let afterHeader :=
        if names.contains t then (Except.ok (), e2)
        else
          match createSheet fail sid t e2 with
          | (.error ex, e3) => (.error ex, e3)
          | (.ok _, e3) =>
            match extractHeaders l with
            | .error ex => (.error ex, e3)
            | .ok headers => appendDataToSheet fail sid t [headers.map Value.vStr] e3
      match afterHeader with
      | (.error ex, e4) => (.error ex, e4)
      | (.ok _, e4) =>
        match appendDataToSheet fail sid t (mapDataToValues l) e4 with
        | (.error ex, e5) => (.error ex, e5)
        | (.ok _, e5) =>
          (.ok ⟨200, "Data successfully appended to the sheet"⟩, e5)

/-- `processSheetData` (service revision with the `folderType` parameter).
Validates the required fields, resolves the folder id through the folder
mapping, runs the orchestration, and rewraps any exception from the `try`
block as an HTTP 500 `Error processing sheet data: ...`.  The folder
mapping itself is a config file not present in the sources; it is passed in
as a lookup from folder-type label to Drive folder id. -/
def processSheetData (fail : Nat → Bool) (mapping : String → Option String)
    (dto : AppendToSheet) (folderType : String) (st0 : RemoteState) :
    Except HttpException ProcessSheetResponse × Exec :=
  let e0 : Exec := ⟨st0, [], 0⟩
  match dto.username, dto.imageType, validData dto.imageData with
  | some u, some t, some l =>
    if u == "" then (.error ⟨"Missing or invalid required fields", 400⟩, e0)
    else if t == "" then (.error ⟨"Missing or invalid required fields", 400⟩, e0)
    else
      match mapping folderType with
      | none => (.error ⟨"Invalid folder type: " ++ folderType, 400⟩, e0)
      | some fid =>
        if fid == "" then (.error ⟨"Invalid folder type: " ++ folderType, 400⟩, e0)
        else
          match processBody fail u t l fid e0 with
          | (.error ex, e1) =>
              (.error ⟨"Error processing sheet data: " ++ ex.message, 500⟩, e1)
          | (.ok r, e1) => (.ok r, e1)
  | _, _, _ => (.error ⟨"Missing or invalid required fields", 400⟩, e0)

/-- The static `FolderMapping` object as the controller uses it: the two
sheet-configuration entries.  `none` models an absent/undefined entry. -/
structure FolderMapping where
  farmCollectorSheet : Option String
  payslipCollectorSheet : Option String
deriving DecidableEq, Repr

/-- The controller's sheet selection: `imageType === 'Farmer' ?
FolderMapping.farmCollectorSheet : FolderMapping.payslipCollectorSheet`. -/
def selectSheetId (cfg : FolderMapping) (imageType : Option String) :
    Option String :=
  if imageType == some "Farmer" then cfg.farmCollectorSheet
  else cfg.payslipCollectorSheet

/-- The `try` block of the controller's `appendToSheet`: select the sheet
id from `imageType`, throw HTTP 400 on a falsy configuration value, and
otherwise delegate to the service (`appendDataToWorkbookSheet` is not among
the sources, so the downstream call is a parameter `ds`). -/
def appendToSheetInner (cfg : FolderMapping) (body : AppendToSheet)
    (ds : AppendToSheet → String → Option String →
      Except HttpException ProcessSheetResponse) :
    Except HttpException ProcessSheetResponse :=
  let sheetId := selectSheetId cfg body.imageType
  if strFalsy sheetId then
    .error ⟨"Invalid sheet configuration in FolderMapping", 400⟩
  else ds body (sheetId.getD "") body.imageType

/-- The controller's `appendToSheet`: run the `try` block; its catch-all
converts every thrown error to a fixed HTTP 500 response. -/
def appendToSheet (cfg : FolderMapping) (body : AppendToSheet)
    (ds : AppendToSheet → String → Option String →
      Except HttpException ProcessSheetResponse) :
    Except HttpException ProcessSheetResponse :=
  match appendToSheetInner cfg body ds with
  | .ok r => .ok r
  | .error _ =>
      .error ⟨"An error occurred while processing the request", 500⟩

/-- The failure schedule under which every remote call succeeds. -/
def noFail : Nat → Bool := fun _ => false

/-- The first file in the remote state matching the Drive query: the
spreadsheet `processSheetData` will operate on, when present. -/
def targetFile (st : RemoteState) (folderId title : String) :
    Option SpreadsheetFile :=
  (st.files.filter (matchesQuery folderId title)).head?

/-- The rows of tab `tab` of spreadsheet `sid`, when both exist. -/
def tabRows (st : RemoteState) (sid tab : String) : Option (List Row) :=
  match findFile st sid with
  | some f => (f.tabs.find? (fun p => p.1 == tab)).map Prod.snd
  | none => none

/-- The tab titles of spreadsheet `sid` (empty when `sid` is unknown). -/
def sheetNamesOf (st : RemoteState) (sid : String) : List String :=
  match findFile st sid with
  | some f => f.tabs.map Prod.fst
  | none => []

/-- The id of the spreadsheet a run will operate on: the first query match,
or the freshly minted id when none matches. -/
def targetSid (st : RemoteState) (folderId title : String) : String :=
  match targetFile st folderId title with
  | some f => f.id
  | none => freshId st

/-- The call index of the final data append in a run that creates the tab:
call 4 when the spreadsheet already exists, call 5 when it is created. -/
def dataAppendIdx (st : RemoteState) (folderId title : String) : Nat :=
  match targetFile st folderId title with
  | some _ => 4
  | none => 5

/-- `find?` commutes with mapping a function that preserves the predicate. -/
theorem find_pres {α : Type} (p : α → Bool) (g : α → α)
    (hp : ∀ x, p (g x) = p x) :
    ∀ l : List α, (l.map g).find? p = (l.find? p).map g := by
  intro l
  induction l with
  | nil => rfl
  | cons a l ih =>
      simp only [List.map_cons, List.find?_cons, hp a]
      cases p a <;> simp [ih]

theorem tabAdder_id (sid title : String) (f : SpreadsheetFile) :
    (tabAdder sid title f).id = f.id := by
  unfold tabAdder
  by_cases h : (f.id == sid) = true <;> simp [h]

theorem rowAppender_id (sid nm : String) (vs : List Row) (f : SpreadsheetFile) :
    (rowAppender sid nm vs f).id = f.id := by
  unfold rowAppender
  by_cases h : (f.id == sid) = true <;> simp [h]

theorem tabAppend_fst (nm : String) (vs : List Row) (p : String × List Row) :
    (tabAppend nm vs p).1 = p.1 := by
  unfold tabAppend
  by_cases h : (p.1 == nm) = true <;> simp [h]

theorem findFile_addTab (st : RemoteState) (sid title sid' : String) :
    findFile (addTab st sid title) sid' =
      (findFile st sid').map (tabAdder sid title) := by
  unfold findFile addTab
  exact find_pres _ _ (fun f => by rw [tabAdder_id]) _

theorem findFile_appendRows (st : RemoteState) (sid nm : String) (vs : List Row)
    (sid' : String) :
    findFile (appendRows st sid nm vs) sid' =
      (findFile st sid').map (rowAppender sid nm vs) := by
  unfold findFile appendRows
  exact find_pres _ _ (fun f => by rw [rowAppender_id]) _

theorem tabsFind_tabAppend (l : List (String × List Row)) (nm t' : String)
    (vs : List Row) :
    (l.map (tabAppend nm vs)).find? (fun p => p.1 == t') =
      (l.find? (fun p => p.1 == t')).map (tabAppend nm vs) :=
  find_pres _ _ (fun p => by rw [tabAppend_fst]) _

theorem findFile_addTab_self (st : RemoteState) (sid title : String)
    (f : SpreadsheetFile) (hf : findFile st sid = some f) :
    findFile (addTab st sid title) sid =
      some { f with tabs := f.tabs ++ [(title, [])] } := by
  have hid : (f.id == sid) = true := by simpa using List.find?_some hf
  rw [findFile_addTab, hf]
  simp [tabAdder, hid]

theorem findFile_appendRows_self (st : RemoteState) (sid nm : String)
    (vs : List Row) (f : SpreadsheetFile) (hf : findFile st sid = some f) :
    findFile (appendRows st sid nm vs) sid =
      some { f with tabs := f.tabs.map (tabAppend nm vs) } := by
  have hid : (f.id == sid) = true := by simpa using List.find?_some hf
  rw [findFile_appendRows, hf]
  simp [rowAppender, hid]

theorem tabsFind_none_of_not_contains (l : List (String × List Row))
    (t : String) (h : (l.map Prod.fst).contains t = false) :
    l.find? (fun p => p.1 == t) = none := by
  induction l with
  | nil => rfl
  | cons a l ih =>
      simp only [List.map_cons, List.contains_cons, Bool.or_eq_false_iff] at h
      have h1 : (a.1 == t) = false := by
        cases hb : (a.1 == t)
        · rfl
        · have := beq_iff_eq.mp hb
          rw [this] at h
          simp at h
      rw [List.find?_cons, h1]
      exact ih h.2

theorem tabsFind_append_self (l : List (String × List Row)) (t : String)
    (rs : List Row) (h : l.find? (fun p => p.1 == t) = none) :
    (l ++ [(t, rs)]).find? (fun p => p.1 == t) = some (t, rs) := by
  rw [List.find?_append, h]
  simp

theorem contains_of_tabsFind (l : List (String × List Row)) (t : String)
    (q : String × List Row) (hq : l.find? (fun p => p.1 == t) = some q) :
    (l.map Prod.fst).contains t = true := by
  have hp : (q.1 == t) = true := by simpa using List.find?_some hq
  have hm : q ∈ l := List.mem_of_find?_eq_some hq
  have hmm : q.1 ∈ l.map Prod.fst := List.mem_map_of_mem _ hm
  rw [← beq_iff_eq.mp hp]
  exact List.contains_iff_exists_mem_beq.mpr ⟨q.1, hmm, by simp⟩

theorem tabRows_appendRows_self (st : RemoteState) (sid t : String)
    (vs : List Row) (f : SpreadsheetFile) (q : String × List Row)
    (hf : findFile st sid = some f)
    (hq : f.tabs.find? (fun p => p.1 == t) = some q) :
    tabRows (appendRows st sid t vs) sid t = some (q.2 ++ vs) := by
  have ht : (q.1 == t) = true := by simpa using List.find?_some hq
  unfold tabRows
  rw [findFile_appendRows_self st sid t vs f hf]
  show ((f.tabs.map (tabAppend t vs)).find? (fun p => p.1 == t)).map Prod.snd =
    some (q.2 ++ vs)
  rw [tabsFind_tabAppend, hq]
  simp [tabAppend, ht]

theorem tabRows_appendRows_frame (st : RemoteState) (sid nm : String)
    (vs : List Row) (sid' t' : String) (h : sid' ≠ sid ∨ t' ≠ nm) :
    tabRows (appendRows st sid nm vs) sid' t' = tabRows st sid' t' := by
  unfold tabRows
  rw [findFile_appendRows]
  cases hf : findFile st sid' with
  | none => rfl
  | some f =>
      have hid : (f.id == sid') = true := by simpa using List.find?_some hf
      have hid' : f.id = sid' := beq_iff_eq.mp hid
      simp only [Option.map_some']
      rcases h with h | h
      · have hne : (f.id == sid) = false := by
          rw [beq_eq_false_iff_ne, hid']
          exact h
        simp [rowAppender, hne]
      · unfold rowAppender
        by_cases hb : (f.id == sid) = true
        · simp only [hb, if_true]
          rw [tabsFind_tabAppend]
          cases hq : f.tabs.find? (fun p => p.1 == t') with
          | none => rfl
          | some q =>
              have hqt : q.1 = t' := by
                have := List.find?_some hq
                simpa using this
              have hno : (q.1 == nm) = false := by
                rw [beq_eq_false_iff_ne, hqt]
                exact h
              simp [tabAppend, hno]
        · rw [Bool.not_eq_true] at hb
          simp [hb]

theorem sheetNamesOf_appendRows (st : RemoteState) (sid nm : String)
    (vs : List Row) (sid' : String) :
    sheetNamesOf (appendRows st sid nm vs) sid' = sheetNamesOf st sid' := by
  unfold sheetNamesOf
  rw [findFile_appendRows]
  cases hf : findFile st sid' with
  | none => rfl
  | some f =>
      simp only [Option.map_some']
      unfold rowAppender
      by_cases hb : (f.id == sid) = true
      · simp only [hb, if_true, List.map_map]
        congr 1
        funext p
        exact tabAppend_fst nm vs p
      · rw [Bool.not_eq_true] at hb
        simp [hb]

theorem find_id_append (files : List SpreadsheetFile) (nf : SpreadsheetFile)
    (h : files.find? (fun g => g.id == nf.id) = none) :
    (files ++ [nf]).find? (fun g => g.id == nf.id) = some nf := by
  rw [List.find?_append, h]
  simp

theorem tabRows_create_write (st : RemoteState) (sid t : String) (hdr : Row)
    (vals : List Row) (f : SpreadsheetFile) (hf : findFile st sid = some f)
    (habs : (f.tabs.map Prod.fst).contains t = false) :
    tabRows (appendRows (appendRows (addTab st sid t) sid t [hdr]) sid t vals)
      sid t = some (hdr :: vals) := by
  have hq0 : f.tabs.find? (fun p => p.1 == t) = none :=
    tabsFind_none_of_not_contains f.tabs t habs
  have hf1 := findFile_addTab_self st sid t f hf
  have hq1 : (f.tabs ++ [(t, [])]).find? (fun p => p.1 == t) = some (t, []) :=
    tabsFind_append_self f.tabs t [] hq0
  have hf2 := findFile_appendRows_self (addTab st sid t) sid t [hdr] _ hf1
  have hq2 : ((f.tabs ++ [(t, [])]).map (tabAppend t [hdr])).find?
      (fun p => p.1 == t) = some (t, [hdr]) := by
    rw [tabsFind_tabAppend, hq1]
    simp [tabAppend]
  have hfin := tabRows_appendRows_self (appendRows (addTab st sid t) sid t [hdr])
    sid t vals _ (t, [hdr]) hf2 hq2
  simpa using hfin

theorem tabRows_create_header (st : RemoteState) (sid t : String) (hdr : Row)
    (f : SpreadsheetFile) (hf : findFile st sid = some f)
    (habs : (f.tabs.map Prod.fst).contains t = false) :
    tabRows (appendRows (addTab st sid t) sid t [hdr]) sid t = some [hdr] := by
  have hq0 : f.tabs.find? (fun p => p.1 == t) = none :=
    tabsFind_none_of_not_contains f.tabs t habs
  have hf1 := findFile_addTab_self st sid t f hf
  have hq1 : (f.tabs ++ [(t, [])]).find? (fun p => p.1 == t) = some (t, []) :=
    tabsFind_append_self f.tabs t [] hq0
  have hfin := tabRows_appendRows_self (addTab st sid t) sid t [hdr] _ (t, [])
    hf1 hq1
  simpa using hfin

/-- Full run of `processSheetData` when the spreadsheet is found and the tab
named `t` already exists: three sequential remote calls and an append of the
data rows after the existing content. -/
theorem runFoundPresent (fail : Nat → Bool) (mapping : String → Option String)
    (u t ft fid : String) (r : Rec) (rest : List Rec) (st0 : RemoteState)
    (f : SpreadsheetFile)
    (hu : (u == "") = false) (ht : (t == "") = false)
    (hmap : mapping ft = some fid) (hfid : (fid == "") = false)
    (htf : targetFile st0 fid (toUpperStr u ++ "_MainSheet") = some f)
    (hff : findFile st0 f.id = some f)
    (hpres : (f.tabs.map Prod.fst).contains t = true)
    (h0 : fail 0 = false) (h1 : fail 1 = false) (h2 : fail 2 = false) :
    processSheetData fail mapping ⟨some u, some t, .arr (r :: rest)⟩ ft st0 =
      (.ok ⟨200, "Data successfully appended to the sheet"⟩,
       ⟨appendRows st0 f.id t (mapDataToValues (r :: rest)),
        [.filesList fid (toUpperStr u ++ "_MainSheet"), .spreadsheetsGet f.id,
         .valuesAppend f.id t (mapDataToValues (r :: rest))], 3⟩) := by
  have htf' : (st0.files.filter
      (matchesQuery fid (toUpperStr u ++ "_MainSheet"))).head? = some f := htf
  simp [processSheetData, validData, hu, ht, hmap, hfid,
    processBody, findOrCreateSpreadsheet, searchForSpreadsheet, apiFilesList,
    issue, getSheetNames, apiSpreadsheetsGet, appendDataToSheet,
    apiValuesAppend, h0, h1, h2, htf', hff, hpres]
  rw [hpres]
  simp [h2, appendDataToSheet, apiValuesAppend]

/-- Run of `processSheetData` up to the final data append when the
spreadsheet is found but the tab named `t` is absent: the tab is created and
the header row written first; the final data append is left symbolic so that
both its success and its failure can be read off. -/
theorem runFoundAbsent (fail : Nat → Bool) (mapping : String → Option String)
    (u t ft fid : String) (r : Rec) (rest : List Rec) (st0 : RemoteState)
    (f : SpreadsheetFile)
    (hu : (u == "") = false) (ht : (t == "") = false)
    (hmap : mapping ft = some fid) (hfid : (fid == "") = false)
    (htf : targetFile st0 fid (toUpperStr u ++ "_MainSheet") = some f)
    (hff : findFile st0 f.id = some f)
    (habs : (f.tabs.map Prod.fst).contains t = false)
    (h0 : fail 0 = false) (h1 : fail 1 = false) (h2 : fail 2 = false)
    (h3 : fail 3 = false) :
    processSheetData fail mapping ⟨some u, some t, .arr (r :: rest)⟩ ft st0 =
      (match appendDataToSheet fail f.id t (mapDataToValues (r :: rest))
          ⟨appendRows (addTab st0 f.id t) f.id t [(r.map Prod.fst).map Value.vStr],
           [.filesList fid (toUpperStr u ++ "_MainSheet"), .spreadsheetsGet f.id,
            .addSheet f.id t,
            .valuesAppend f.id t [(r.map Prod.fst).map Value.vStr]], 4⟩ with
       | (.error ex, e5) =>
           (.error ⟨"Error processing sheet data: " ++ ex.message, 500⟩, e5)
       | (.ok _, e5) =>
           (.ok ⟨200, "Data successfully appended to the sheet"⟩, e5)) := by
  have htf' : (st0.files.filter
      (matchesQuery fid (toUpperStr u ++ "_MainSheet"))).head? = some f := htf
  simp [processSheetData, validData, hu, ht, hmap, hfid,
    processBody, findOrCreateSpreadsheet, searchForSpreadsheet, apiFilesList,
    issue, getSheetNames, apiSpreadsheetsGet, h0, h1, htf', hff]
  rw [habs]
  simp [createSheet, apiAddSheet, issue, h2, extractHeaders, appendDataToSheet,
    apiValuesAppend, h3]
  cases hF : fail 4 <;> simp [hF, issue, h3]

/-- Run of `processSheetData` up to the final data append when no
spreadsheet matches the query: one is created, the tab and header row are
written, and the final data append is left symbolic. -/
theorem runNotFound (fail : Nat → Bool) (mapping : String → Option String)
    (u t ft fid : String) (r : Rec) (rest : List Rec) (st0 : RemoteState)
    (hu : (u == "") = false) (ht : (t == "") = false)
    (hmap : mapping ft = some fid) (hfid : (fid == "") = false)
    (htf : targetFile st0 fid (toUpperStr u ++ "_MainSheet") = none)
    (hnew : st0.files.find? (fun g => g.id == freshId st0) = none)
    (h0 : fail 0 = false) (h1 : fail 1 = false) (h2 : fail 2 = false)
    (h3 : fail 3 = false) (h4 : fail 4 = false) :
    processSheetData fail mapping ⟨some u, some t, .arr (r :: rest)⟩ ft st0 =
      (let sid := freshId st0
       let stC : RemoteState :=
         ⟨st0.files ++ [⟨sid, toUpperStr u ++ "_MainSheet", fid, []⟩],
          st0.nextId + 1⟩
       match appendDataToSheet fail sid t (mapDataToValues (r :: rest))
          ⟨appendRows (addTab stC sid t) sid t [(r.map Prod.fst).map Value.vStr],
           [.filesList fid (toUpperStr u ++ "_MainSheet"),
            .filesCreate (toUpperStr u ++ "_MainSheet") fid,
            .spreadsheetsGet sid, .addSheet sid t,
            .valuesAppend sid t [(r.map Prod.fst).map Value.vStr]], 5⟩ with
       | (.error ex, e6) =>
           (.error ⟨"Error processing sheet data: " ++ ex.message, 500⟩, e6)
       | (.ok _, e6) =>
           (.ok ⟨200, "Data successfully appended to the sheet"⟩, e6)) := by
  have htf' : (st0.files.filter
      (matchesQuery fid (toUpperStr u ++ "_MainSheet"))).head? = none := htf
  have hfc :=
    find_id_append st0.files
      (⟨freshId st0, toUpperStr u ++ "_MainSheet", fid, []⟩ : SpreadsheetFile)
      (by simpa using hnew)
  simp [processSheetData, validData, hu, ht, hmap, hfid,
    processBody, findOrCreateSpreadsheet, searchForSpreadsheet, apiFilesList,
    createSpreadsheet, apiFilesCreate, issue, getSheetNames,
    apiSpreadsheetsGet, findFile, h0, h1, h2, htf', hfc]
  simp [createSheet, apiAddSheet, issue, h3, extractHeaders, appendDataToSheet,
    apiValuesAppend, h4]
  cases hF : fail 5 <;> simp [hF, issue, h4]

/-- Fully reduced successful run for the found-spreadsheet, absent-tab
case. -/
theorem runFoundAbsentNoFail (mapping : String → Option String)
    (u t ft fid : String) (r : Rec) (rest : List Rec) (st0 : RemoteState)
    (f : SpreadsheetFile)
    (hu : (u == "") = false) (ht : (t == "") = false)
    (hmap : mapping ft = some fid) (hfid : (fid == "") = false)
    (htf : targetFile st0 fid (toUpperStr u ++ "_MainSheet") = some f)
    (hff : findFile st0 f.id = some f)
    (habs : (f.tabs.map Prod.fst).contains t = false) :
    processSheetData noFail mapping ⟨some u, some t, .arr (r :: rest)⟩ ft st0 =
      (.ok ⟨200, "Data successfully appended to the sheet"⟩,
       ⟨appendRows (appendRows (addTab st0 f.id t) f.id t
            [(r.map Prod.fst).map Value.vStr]) f.id t
            (mapDataToValues (r :: rest)),
        [.filesList fid (toUpperStr u ++ "_MainSheet"), .spreadsheetsGet f.id,
         .addSheet f.id t,
         .valuesAppend f.id t [(r.map Prod.fst).map Value.vStr],
         .valuesAppend f.id t (mapDataToValues (r :: rest))], 5⟩) := by
  rw [runFoundAbsent noFail mapping u t ft fid r rest st0 f hu ht hmap hfid
    htf hff habs rfl rfl rfl rfl]
  simp [appendDataToSheet, apiValuesAppend, noFail, issue]

/-- Fully reduced successful run for the no-spreadsheet case: the
spreadsheet is created fresh, then the tab, header row and data rows. -/
theorem runNotFoundNoFail (mapping : String → Option String)
    (u t ft fid : String) (r : Rec) (rest : List Rec) (st0 : RemoteState)
    (hu : (u == "") = false) (ht : (t == "") = false)
    (hmap : mapping ft = some fid) (hfid : (fid == "") = false)
    (htf : targetFile st0 fid (toUpperStr u ++ "_MainSheet") = none)
    (hnew : st0.files.find? (fun g => g.id == freshId st0) = none) :
    processSheetData noFail mapping ⟨some u, some t, .arr (r :: rest)⟩ ft st0 =
      (.ok ⟨200, "Data successfully appended to the sheet"⟩,
       ⟨appendRows (appendRows (addTab
            ⟨st0.files ++ [⟨freshId st0, toUpperStr u ++ "_MainSheet", fid, []⟩],
             st0.nextId + 1⟩ (freshId st0) t) (freshId st0) t
            [(r.map Prod.fst).map Value.vStr]) (freshId st0) t
            (mapDataToValues (r :: rest)),
        [.filesList fid (toUpperStr u ++ "_MainSheet"),
         .filesCreate (toUpperStr u ++ "_MainSheet") fid,
         .spreadsheetsGet (freshId st0), .addSheet (freshId st0) t,
         .valuesAppend (freshId st0) t [(r.map Prod.fst).map Value.vStr],
         .valuesAppend (freshId st0) t (mapDataToValues (r :: rest))], 6⟩) := by
  rw [runNotFound noFail mapping u t ft fid r rest st0 hu ht hmap hfid htf
    hnew rfl rfl rfl rfl rfl]
  simp [appendDataToSheet, apiValuesAppend, noFail, issue]

/-- C2: for every submission with a missing/empty `username`, a
missing/empty `imageType`, or an `imageData` that is not a non-empty array,
`processSheetData` rejects with HTTP 400 `Missing or invalid required
fields`, the remote-call trace is empty (no search, creation, or append was
issued), and the remote state is untouched. -/
theorem C2_validation_rejects_before_remote (fail : Nat → Bool)
    (mapping : String → Option String) (dto : AppendToSheet)
    (folderType : String) (st0 : RemoteState)
    (h : strFalsy dto.username = true ∨ strFalsy dto.imageType = true ∨
      validData dto.imageData = none) :
    (processSheetData fail mapping dto folderType st0).1 =
      .error ⟨"Missing or invalid required fields", 400⟩ ∧
    (processSheetData fail mapping dto folderType st0).2.trace = [] ∧
    (processSheetData fail mapping dto folderType st0).2.remote = st0 := by
  obtain ⟨us, it, idf⟩ := dto
  cases us with
  | none => simp [processSheetData]
  | some u =>
    cases it with
    | none => simp [processSheetData]
    | some t =>
      cases hv : validData idf with
      | none => simp [processSheetData, hv]
      | some l =>
        rcases h with h | h | h
        · simp only [strFalsy] at h
          simp [processSheetData, hv, h]
        · simp only [strFalsy] at h
          simp [processSheetData, hv, h]
        · rw [hv] at h
          exact absurd h (by simp)

theorem C2_witness :
    (strFalsy (none : Option String) = true ∨
      strFalsy (some "T") = true ∨
      validData (.arr [[("a", .vInt 1)]]) = none) ∧
    (processSheetData noFail (fun _ => some "FID")
        ⟨none, some "T", .arr [[("a", .vInt 1)]]⟩ "x" ⟨[], 0⟩).1 =
      .error ⟨"Missing or invalid required fields", 400⟩ ∧
    (processSheetData noFail (fun _ => some "FID")
        ⟨none, some "T", .arr [[("a", .vInt 1)]]⟩ "x" ⟨[], 0⟩).2.trace = [] ∧
    (processSheetData noFail (fun _ => some "FID")
        ⟨none, some "T", .arr [[("a", .vInt 1)]]⟩ "x" ⟨[], 0⟩).2.remote =
      ⟨[], 0⟩ := by
  refine ⟨Or.inl rfl, ?_⟩
  exact (C2_validation_rejects_before_remote noFail (fun _ => some "FID")
    ⟨none, some "T", .arr [[("a", .vInt 1)]]⟩ "x" ⟨[], 0⟩ (Or.inl rfl)).imp
    id id |>.imp id id

/-- C7 counterexample: a request whose folder selector is unmapped but
whose body also misses `username` is rejected with the validation message,
not with a message naming the invalid folder type, so the claim as stated
(quantified over every request with an unmapped selector) fails. -/
theorem C7_counterexample :
    ((fun _ => (none : Option String)) "X" = none) ∧
    (processSheetData noFail (fun _ => none)
        ⟨none, some "Farmer", .arr [[("a", .vInt 1)]]⟩ "X" ⟨[], 0⟩).1 =
      .error ⟨"Missing or invalid required fields", 400⟩ ∧
    (processSheetData noFail (fun _ => none)
        ⟨none, some "Farmer", .arr [[("a", .vInt 1)]]⟩ "X" ⟨[], 0⟩).1 ≠
      .error ⟨"Invalid folder type: X", 400⟩ := by
  refine ⟨rfl, rfl, ?_⟩
  decide

/-- C7 (amended): for every request that passes the required-field
validation and whose `folderType` does not map to a truthy folder id, the
service rejects with HTTP 400 `Invalid folder type: <folderType>` before
any remote call is issued, leaving the remote state untouched. -/
theorem C7_unmapped_folder_rejected (fail : Nat → Bool)
    (mapping : String → Option String) (u t : String) (r : Rec)
    (rest : List Rec) (folderType : String) (st0 : RemoteState)
    (hu : u ≠ "") (ht : t ≠ "")
    (hbad : strFalsy (mapping folderType) = true) :
    (processSheetData fail mapping ⟨some u, some t, .arr (r :: rest)⟩
        folderType st0).1 =
      .error ⟨"Invalid folder type: " ++ folderType, 400⟩ ∧
    (processSheetData fail mapping ⟨some u, some t, .arr (r :: rest)⟩
        folderType st0).2.trace = [] ∧
    (processSheetData fail mapping ⟨some u, some t, .arr (r :: rest)⟩
        folderType st0).2.remote = st0 := by
  have hu' : (u == "") = false := beq_eq_false_iff_ne.mpr hu
  have ht' : (t == "") = false := beq_eq_false_iff_ne.mpr ht
  cases hm : mapping folderType with
  | none => simp [processSheetData, validData, hu', ht', hm]
  | some fid =>
      rw [hm] at hbad
      simp only [strFalsy] at hbad
      simp [processSheetData, validData, hu', ht', hm, hbad]

theorem C7_unmapped_folder_witness :
    ("u" ≠ "") ∧ ("T" ≠ "") ∧
    strFalsy ((fun _ => (none : Option String)) "X") = true ∧
    (processSheetData noFail (fun _ => none)
        ⟨some "u", some "T", .arr [[("a", .vInt 1)]]⟩ "X" ⟨[], 0⟩).1 =
      .error ⟨"Invalid folder type: X", 400⟩ ∧
    (processSheetData noFail (fun _ => none)
        ⟨some "u", some "T", .arr [[("a", .vInt 1)]]⟩ "X" ⟨[], 0⟩).2.trace =
      [] := by
  refine ⟨by decide, by decide, rfl, ?_, ?_⟩
  · exact (C7_unmapped_folder_rejected noFail (fun _ => none) "u" "T"
      [("a", .vInt 1)] [] "X" ⟨[], 0⟩ (by decide) (by decide) rfl).1
  · exact (C7_unmapped_folder_rejected noFail (fun _ => none) "u" "T"
      [("a", .vInt 1)] [] "X" ⟨[], 0⟩ (by decide) (by decide) rfl).2.1

/-- C4: for every valid submission whose `imageType` names a tab already
present in the target spreadsheet, the run issues no tab-creation and no
header write: the trace is exactly search, get-sheet-names, and one data
append; the named tab ends as its old content followed by the data rows;
every other tab of every spreadsheet is untouched, and no spreadsheet gains
or loses a tab. -/
theorem C4_existing_tab_append_only (mapping : String → Option String)
    (u t ft fid : String) (r : Rec) (rest : List Rec) (st0 : RemoteState)
    (f : SpreadsheetFile) (q : String × List Row)
    (hu : u ≠ "") (ht : t ≠ "")
    (hmap : mapping ft = some fid) (hfid : fid ≠ "")
    (htf : targetFile st0 fid (toUpperStr u ++ "_MainSheet") = some f)
    (hff : findFile st0 f.id = some f)
    (hq : f.tabs.find? (fun p => p.1 == t) = some q) :
    (processSheetData noFail mapping ⟨some u, some t, .arr (r :: rest)⟩
        ft st0).1 = .ok ⟨200, "Data successfully appended to the sheet"⟩ ∧
    (processSheetData noFail mapping ⟨some u, some t, .arr (r :: rest)⟩
        ft st0).2.trace =
      [.filesList fid (toUpperStr u ++ "_MainSheet"), .spreadsheetsGet f.id,
       .valuesAppend f.id t (mapDataToValues (r :: rest))] ∧
    tabRows (processSheetData noFail mapping ⟨some u, some t, .arr (r :: rest)⟩
        ft st0).2.remote f.id t = some (q.2 ++ mapDataToValues (r :: rest)) ∧
    (∀ sid' t', sid' ≠ f.id ∨ t' ≠ t →
      tabRows (processSheetData noFail mapping
          ⟨some u, some t, .arr (r :: rest)⟩ ft st0).2.remote sid' t' =
        tabRows st0 sid' t') ∧
    (∀ sid', sheetNamesOf (processSheetData noFail mapping
        ⟨some u, some t, .arr (r :: rest)⟩ ft st0).2.remote sid' =
      sheetNamesOf st0 sid') := by
  have hpres := contains_of_tabsFind f.tabs t q hq
  rw [runFoundPresent noFail mapping u t ft fid r rest st0 f
    (beq_eq_false_iff_ne.mpr hu) (beq_eq_false_iff_ne.mpr ht) hmap
    (beq_eq_false_iff_ne.mpr hfid) htf hff hpres rfl rfl rfl]
  refine ⟨rfl, rfl, ?_, ?_, ?_⟩
  · exact tabRows_appendRows_self st0 f.id t (mapDataToValues (r :: rest))
      f q hff hq
  · intro sid' t' h
    exact tabRows_appendRows_frame st0 f.id t (mapDataToValues (r :: rest))
      sid' t' h
  · intro sid'
    exact sheetNamesOf_appendRows st0 f.id t (mapDataToValues (r :: rest)) sid'

theorem C4_witness :
    ("u" ≠ "") ∧ ("T" ≠ "") ∧
    ((fun _ => some "FID") "x" = (some "FID" : Option String)) ∧
    ("FID" ≠ "") ∧
    targetFile ⟨[⟨"s1", "U_MainSheet", "FID", [("T", [[.vInt 9]])]⟩], 0⟩
      "FID" (toUpperStr "u" ++ "_MainSheet") =
      some ⟨"s1", "U_MainSheet", "FID", [("T", [[.vInt 9]])]⟩ ∧
    (processSheetData noFail (fun _ => some "FID")
        ⟨some "u", some "T", .arr [[("a", .vInt 1)]]⟩ "x"
        ⟨[⟨"s1", "U_MainSheet", "FID", [("T", [[.vInt 9]])]⟩], 0⟩).2.trace =
      [.filesList "FID" (toUpperStr "u" ++ "_MainSheet"), .spreadsheetsGet "s1",
       .valuesAppend "s1" "T" (mapDataToValues [[("a", .vInt 1)]])] ∧
    tabRows (processSheetData noFail (fun _ => some "FID")
        ⟨some "u", some "T", .arr [[("a", .vInt 1)]]⟩ "x"
        ⟨[⟨"s1", "U_MainSheet", "FID", [("T", [[.vInt 9]])]⟩], 0⟩).2.remote
        "s1" "T" = some [[.vInt 9], [.vInt 1]] ∧
    tabRows (processSheetData noFail (fun _ => some "FID")
        ⟨some "u", some "T", .arr [[("a", .vInt 1)]]⟩ "x"
        ⟨[⟨"s1", "U_MainSheet", "FID", [("T", [[.vInt 9]])]⟩], 0⟩).2.remote
        "s2" "T" =
      tabRows ⟨[⟨"s1", "U_MainSheet", "FID", [("T", [[.vInt 9]])]⟩], 0⟩
        "s2" "T" := by
  have h := C4_existing_tab_append_only (fun _ => some "FID") "u" "T" "x"
    "FID" [("a", .vInt 1)] []
    ⟨[⟨"s1", "U_MainSheet", "FID", [("T", [[.vInt 9]])]⟩], 0⟩
    ⟨"s1", "U_MainSheet", "FID", [("T", [[.vInt 9]])]⟩ ("T", [[.vInt 9]])
    (by decide) (by decide) rfl (by decide) (by decide) (by decide)
    (by decide)
  exact ⟨by decide, by decide, rfl, by decide, by decide, h.2.1,
    h.2.2.1, h.2.2.2.1 "s2" "T" (Or.inl (by decide))⟩

/-- C3: for every valid submission the spreadsheet title is the uppercased
username followed by `_MainSheet`; the run first queries the file listing
for that title in the target folder; when a match exists its id is the one
used by the following call and no create is ever issued, and when none
exists a spreadsheet with that title is created in that folder and its
fresh id is the one used afterwards. -/
theorem C3_title_and_find_or_create (mapping : String → Option String)
    (u t ft fid : String) (r : Rec) (rest : List Rec) (st0 : RemoteState)
    (hu : u ≠ "") (ht : t ≠ "")
    (hmap : mapping ft = some fid) (hfid : fid ≠ "")
    (hwf : match targetFile st0 fid (toUpperStr u ++ "_MainSheet") with
           | some f => findFile st0 f.id = some f
           | none => st0.files.find? (fun g => g.id == freshId st0) = none) :
    match targetFile st0 fid (toUpperStr u ++ "_MainSheet") with
    | some f =>
        (processSheetData noFail mapping ⟨some u, some t, .arr (r :: rest)⟩
            ft st0).2.trace.take 2 =
          [.filesList fid (toUpperStr u ++ "_MainSheet"),
           .spreadsheetsGet f.id] ∧
        ∀ ttl fid2, RemoteCall.filesCreate ttl fid2 ∉
          (processSheetData noFail mapping ⟨some u, some t, .arr (r :: rest)⟩
            ft st0).2.trace
    | none =>
        (processSheetData noFail mapping ⟨some u, some t, .arr (r :: rest)⟩
            ft st0).2.trace.take 3 =
          [.filesList fid (toUpperStr u ++ "_MainSheet"),
           .filesCreate (toUpperStr u ++ "_MainSheet") fid,
           .spreadsheetsGet (freshId st0)] := by
  have hu' : (u == "") = false := beq_eq_false_iff_ne.mpr hu
  have ht' : (t == "") = false := beq_eq_false_iff_ne.mpr ht
  have hfid' : (fid == "") = false := beq_eq_false_iff_ne.mpr hfid
  cases htf : targetFile st0 fid (toUpperStr u ++ "_MainSheet") with
  | some f =>
      rw [htf] at hwf
      cases hpres : (f.tabs.map Prod.fst).contains t with
      | true =>
          rw [runFoundPresent noFail mapping u t ft fid r rest st0 f hu' ht'
            hmap hfid' htf hwf hpres rfl rfl rfl]
          exact ⟨rfl, by intro ttl fid2; simp⟩
      | false =>
          rw [runFoundAbsentNoFail mapping u t ft fid r rest st0 f hu' ht'
            hmap hfid' htf hwf hpres]
          exact ⟨rfl, by intro ttl fid2; simp⟩
  | none =>
      rw [htf] at hwf
      rw [runNotFoundNoFail mapping u t ft fid r rest st0 hu' ht' hmap hfid'
        htf hwf]
      rfl

theorem C3_witness :
    ("user" ≠ "") ∧ ("T" ≠ "") ∧
    ((fun _ => some "FID") "x" = (some "FID" : Option String)) ∧
    ("FID" ≠ "") ∧
    (match targetFile ⟨[], 0⟩ "FID" (toUpperStr "user" ++ "_MainSheet") with
     | some f => findFile ⟨[], 0⟩ f.id = some f
     | none => List.find? (fun g => g.id == freshId ⟨[], 0⟩)
         ([] : List SpreadsheetFile) = none) ∧
    (match targetFile ⟨[], 0⟩ "FID" (toUpperStr "user" ++ "_MainSheet") with
     | some f =>
        (processSheetData noFail (fun _ => some "FID")
            ⟨some "user", some "T", .arr [[("a", .vInt 1)]]⟩
            "x" ⟨[], 0⟩).2.trace.take 2 =
          [.filesList "FID" (toUpperStr "user" ++ "_MainSheet"),
           .spreadsheetsGet f.id] ∧
        ∀ ttl fid2, RemoteCall.filesCreate ttl fid2 ∉
          (processSheetData noFail (fun _ => some "FID")
            ⟨some "user", some "T", .arr [[("a", .vInt 1)]]⟩
            "x" ⟨[], 0⟩).2.trace
     | none =>
        (processSheetData noFail (fun _ => some "FID")
            ⟨some "user", some "T", .arr [[("a", .vInt 1)]]⟩
            "x" ⟨[], 0⟩).2.trace.take 3 =
          [.filesList "FID" (toUpperStr "user" ++ "_MainSheet"),
           .filesCreate (toUpperStr "user" ++ "_MainSheet") "FID",
           .spreadsheetsGet (freshId ⟨[], 0⟩)]) := by
  refine ⟨by decide, by decide, rfl, by decide, rfl, ?_⟩
  exact C3_title_and_find_or_create (fun _ => some "FID") "user" "T" "x"
    "FID" [("a", .vInt 1)] [] ⟨[], 0⟩ (by decide) (by decide) rfl
    (by decide) rfl

/-- C1: for every valid submission whose `imageType` names a tab not yet
present in the target spreadsheet, the run succeeds, the trace ends with
create-tab, then the header append, then the data append (so the tab is
created and the single header row written before any data row), and the tab
ends as exactly the header row — the keys of the first record in encounter
order — followed by one row of values per record in key order. -/
theorem C1_new_tab_header_then_rows (mapping : String → Option String)
    (u t ft fid : String) (r : Rec) (rest : List Rec) (st0 : RemoteState)
    (hu : u ≠ "") (ht : t ≠ "")
    (hmap : mapping ft = some fid) (hfid : fid ≠ "")
    (hsc : match targetFile st0 fid (toUpperStr u ++ "_MainSheet") with
           | some f => findFile st0 f.id = some f ∧
               (f.tabs.map Prod.fst).contains t = false
           | none => st0.files.find? (fun g => g.id == freshId st0) = none) :
    (processSheetData noFail mapping ⟨some u, some t, .arr (r :: rest)⟩
        ft st0).1 = .ok ⟨200, "Data successfully appended to the sheet"⟩ ∧
    (∃ pre, (processSheetData noFail mapping
        ⟨some u, some t, .arr (r :: rest)⟩ ft st0).2.trace =
      pre ++
        [.addSheet (targetSid st0 fid (toUpperStr u ++ "_MainSheet")) t,
         .valuesAppend (targetSid st0 fid (toUpperStr u ++ "_MainSheet")) t
           [(r.map Prod.fst).map Value.vStr],
         .valuesAppend (targetSid st0 fid (toUpperStr u ++ "_MainSheet")) t
           (mapDataToValues (r :: rest))]) ∧
    tabRows (processSheetData noFail mapping
        ⟨some u, some t, .arr (r :: rest)⟩ ft st0).2.remote
      (targetSid st0 fid (toUpperStr u ++ "_MainSheet")) t =
      some ((r.map Prod.fst).map Value.vStr :: mapDataToValues (r :: rest)) := by
  have hu' : (u == "") = false := beq_eq_false_iff_ne.mpr hu
  have ht' : (t == "") = false := beq_eq_false_iff_ne.mpr ht
  have hfid' : (fid == "") = false := beq_eq_false_iff_ne.mpr hfid
  cases htf : targetFile st0 fid (toUpperStr u ++ "_MainSheet") with
  | some f =>
      rw [htf] at hsc
      obtain ⟨hff, habs⟩ := hsc
      have hsid : targetSid st0 fid (toUpperStr u ++ "_MainSheet") = f.id := by
        unfold targetSid
        rw [htf]
      rw [runFoundAbsentNoFail mapping u t ft fid r rest st0 f hu' ht' hmap
        hfid' htf hff habs, hsid]
      refine ⟨rfl, ⟨[.filesList fid (toUpperStr u ++ "_MainSheet"),
        .spreadsheetsGet f.id], rfl⟩, ?_⟩
      exact tabRows_create_write st0 f.id t ((r.map Prod.fst).map Value.vStr)
        (mapDataToValues (r :: rest)) f hff habs
  | none =>
      rw [htf] at hsc
      have hsid : targetSid st0 fid (toUpperStr u ++ "_MainSheet") =
          freshId st0 := by
        unfold targetSid
        rw [htf]
      rw [runNotFoundNoFail mapping u t ft fid r rest st0 hu' ht' hmap hfid'
        htf hsc, hsid]
      refine ⟨rfl, ⟨[.filesList fid (toUpperStr u ++ "_MainSheet"),
        .filesCreate (toUpperStr u ++ "_MainSheet") fid,
        .spreadsheetsGet (freshId st0)], rfl⟩, ?_⟩
      have hfc : findFile
          ⟨st0.files ++ [⟨freshId st0, toUpperStr u ++ "_MainSheet", fid, []⟩],
           st0.nextId + 1⟩ (freshId st0) =
          some ⟨freshId st0, toUpperStr u ++ "_MainSheet", fid, []⟩ :=
        find_id_append st0.files
          (⟨freshId st0, toUpperStr u ++ "_MainSheet", fid, []⟩ :
            SpreadsheetFile) (by simpa using hsc)
      exact tabRows_create_write _ (freshId st0) t
        ((r.map Prod.fst).map Value.vStr) (mapDataToValues (r :: rest))
        _ hfc rfl

theorem C1_witness :
    ("user" ≠ "") ∧ ("T" ≠ "") ∧
    ((fun _ => some "FID") "x" = (some "FID" : Option String)) ∧
    ("FID" ≠ "") ∧
    (match targetFile ⟨[], 0⟩ "FID" (toUpperStr "user" ++ "_MainSheet") with
     | some f => findFile ⟨[], 0⟩ f.id = some f ∧
         (f.tabs.map Prod.fst).contains "T" = false
     | none => List.find? (fun g => g.id == freshId ⟨[], 0⟩)
         ([] : List SpreadsheetFile) = none) ∧
    (processSheetData noFail (fun _ => some "FID")
        ⟨some "user", some "T",
         .arr [[("a", .vInt 1), ("b", .vInt 2)],
               [("a", .vInt 3), ("b", .vInt 4)]]⟩ "x" ⟨[], 0⟩).1 =
      .ok ⟨200, "Data successfully appended to the sheet"⟩ ∧
    tabRows (processSheetData noFail (fun _ => some "FID")
        ⟨some "user", some "T",
         .arr [[("a", .vInt 1), ("b", .vInt 2)],
               [("a", .vInt 3), ("b", .vInt 4)]]⟩ "x" ⟨[], 0⟩).2.remote
      (targetSid ⟨[], 0⟩ "FID" (toUpperStr "user" ++ "_MainSheet")) "T" =
      some [[.vStr "a", .vStr "b"], [.vInt 1, .vInt 2],
            [.vInt 3, .vInt 4]] := by
  have h := C1_new_tab_header_then_rows (fun _ => some "FID") "user" "T" "x"
    "FID" [("a", .vInt 1), ("b", .vInt 2)] [[("a", .vInt 3), ("b", .vInt 4)]]
    ⟨[], 0⟩ (by decide) (by decide) rfl (by decide) rfl
  exact ⟨by decide, by decide, rfl, by decide, rfl, h.1, h.2.2⟩

/-- C5: when every remote call succeeds except the final data append (the
call whose index is `dataAppendIdx`), in a run that had to create the tab,
`processSheetData` returns an HTTP 500 error response, and the remote state
still contains the created tab holding exactly the already-written header
row: no compensating action is taken. -/
theorem C5_append_failure_leaves_header (mapping : String → Option String)
    (fail : Nat → Bool) (u t ft fid : String) (r : Rec) (rest : List Rec)
    (st0 : RemoteState)
    (hu : u ≠ "") (ht : t ≠ "")
    (hmap : mapping ft = some fid) (hfid : fid ≠ "")
    (hsc : match targetFile st0 fid (toUpperStr u ++ "_MainSheet") with
           | some f => findFile st0 f.id = some f ∧
               (f.tabs.map Prod.fst).contains t = false
           | none => st0.files.find? (fun g => g.id == freshId st0) = none)
    (hfail : ∀ k, fail k =
      (k == dataAppendIdx st0 fid (toUpperStr u ++ "_MainSheet"))) :
    (processSheetData fail mapping ⟨some u, some t, .arr (r :: rest)⟩
        ft st0).1 =
      .error ⟨"Error processing sheet data: " ++
        ("Failed to append data to sheet \x27" ++ t ++ "\x27: " ++ remoteErr),
        500⟩ ∧
    tabRows (processSheetData fail mapping ⟨some u, some t, .arr (r :: rest)⟩
        ft st0).2.remote
      (targetSid st0 fid (toUpperStr u ++ "_MainSheet")) t =
      some [(r.map Prod.fst).map Value.vStr] := by
  have hu' : (u == "") = false := beq_eq_false_iff_ne.mpr hu
  have ht' : (t == "") = false := beq_eq_false_iff_ne.mpr ht
  have hfid' : (fid == "") = false := beq_eq_false_iff_ne.mpr hfid
  cases htf : targetFile st0 fid (toUpperStr u ++ "_MainSheet") with
  | some f =>
      rw [htf] at hsc
      obtain ⟨hff, habs⟩ := hsc
      have hidx : dataAppendIdx st0 fid (toUpperStr u ++ "_MainSheet") = 4 := by
        unfold dataAppendIdx
        rw [htf]
      have hsid : targetSid st0 fid (toUpperStr u ++ "_MainSheet") = f.id := by
        unfold targetSid
        rw [htf]
      have h0 : fail 0 = false := by rw [hfail, hidx]; decide
      have h1 : fail 1 = false := by rw [hfail, hidx]; decide
      have h2 : fail 2 = false := by rw [hfail, hidx]; decide
      have h3 : fail 3 = false := by rw [hfail, hidx]; decide
      have h4 : fail 4 = true := by rw [hfail, hidx]; decide
      rw [runFoundAbsent fail mapping u t ft fid r rest st0 f hu' ht' hmap
        hfid' htf hff habs h0 h1 h2 h3, hsid]
      have hch := tabRows_create_header st0 f.id t
        ((r.map Prod.fst).map Value.vStr) f hff habs
      refine ⟨?_, ?_⟩
      · simp [appendDataToSheet, apiValuesAppend, issue, h4]
      · simp [appendDataToSheet, apiValuesAppend, issue, h4]
        simpa [List.map_map] using hch
  | none =>
      rw [htf] at hsc
      have hidx : dataAppendIdx st0 fid (toUpperStr u ++ "_MainSheet") = 5 := by
        unfold dataAppendIdx
        rw [htf]
      have hsid : targetSid st0 fid (toUpperStr u ++ "_MainSheet") =
          freshId st0 := by
        unfold targetSid
        rw [htf]
      have h0 : fail 0 = false := by rw [hfail, hidx]; decide
      have h1 : fail 1 = false := by rw [hfail, hidx]; decide
      have h2 : fail 2 = false := by rw [hfail, hidx]; decide
      have h3 : fail 3 = false := by rw [hfail, hidx]; decide
      have h4 : fail 4 = false := by rw [hfail, hidx]; decide
      have h5 : fail 5 = true := by rw [hfail, hidx]; decide
      rw [runNotFound fail mapping u t ft fid r rest st0 hu' ht' hmap hfid'
        htf hsc h0 h1 h2 h3 h4, hsid]
      have hfc : findFile
          ⟨st0.files ++ [⟨freshId st0, toUpperStr u ++ "_MainSheet", fid, []⟩],
           st0.nextId + 1⟩ (freshId st0) =
          some ⟨freshId st0, toUpperStr u ++ "_MainSheet", fid, []⟩ :=
        find_id_append st0.files
          (⟨freshId st0, toUpperStr u ++ "_MainSheet", fid, []⟩ :
            SpreadsheetFile) (by simpa using hsc)
      have hch := tabRows_create_header _ (freshId st0) t
        ((r.map Prod.fst).map Value.vStr) _ hfc rfl
      refine ⟨?_, ?_⟩
      · simp [appendDataToSheet, apiValuesAppend, issue, h5]
      · simp [appendDataToSheet, apiValuesAppend, issue, h5]
        simpa [List.map_map] using hch

theorem C5_witness :
    ("user" ≠ "") ∧ ("T" ≠ "") ∧
    ((fun _ => some "FID") "x" = (some "FID" : Option String)) ∧
    ("FID" ≠ "") ∧
    (match targetFile ⟨[], 0⟩ "FID" (toUpperStr "user" ++ "_MainSheet") with
     | some f => findFile ⟨[], 0⟩ f.id = some f ∧
         (f.tabs.map Prod.fst).contains "T" = false
     | none => List.find? (fun g => g.id == freshId ⟨[], 0⟩)
         ([] : List SpreadsheetFile) = none) ∧
    (∀ k, (fun k => k == (5 : Nat)) k =
      (k == dataAppendIdx ⟨[], 0⟩ "FID" (toUpperStr "user" ++ "_MainSheet"))) ∧
    (processSheetData (fun k => k == (5 : Nat)) (fun _ => some "FID")
        ⟨some "user", some "T", .arr [[("a", .vInt 1)]]⟩ "x" ⟨[], 0⟩).1 =
      .error ⟨"Error processing sheet data: " ++
        ("Failed to append data to sheet \x27T\x27: " ++ remoteErr), 500⟩ ∧
    tabRows (processSheetData (fun k => k == (5 : Nat)) (fun _ => some "FID")
        ⟨some "user", some "T", .arr [[("a", .vInt 1)]]⟩ "x" ⟨[], 0⟩).2.remote
      (targetSid ⟨[], 0⟩ "FID" (toUpperStr "user" ++ "_MainSheet")) "T" =
      some [[.vStr "a"]] := by
  have h := C5_append_failure_leaves_header (fun _ => some "FID")
    (fun k => k == (5 : Nat)) "user" "T" "x" "FID" [("a", .vInt 1)] []
    ⟨[], 0⟩ (by decide) (by decide) rfl (by decide) rfl (fun k => rfl)
  exact ⟨by decide, by decide, rfl, by decide, rfl, fun k => rfl, h.1, h.2⟩

/-- C8: for every valid submission with all remote calls succeeding, the
trace is exactly the sequential list: search; create-spreadsheet only when
no match; get sheet names; then create-tab and header append exactly when
the tab name was absent from the listed names; then the data append. -/
theorem C8_sequential_call_order (mapping : String → Option String)
    (u t ft fid : String) (r : Rec) (rest : List Rec) (st0 : RemoteState)
    (hu : u ≠ "") (ht : t ≠ "")
    (hmap : mapping ft = some fid) (hfid : fid ≠ "")
    (hwf : match targetFile st0 fid (toUpperStr u ++ "_MainSheet") with
           | some f => findFile st0 f.id = some f
           | none => st0.files.find? (fun g => g.id == freshId st0) = none) :
    (∀ f, targetFile st0 fid (toUpperStr u ++ "_MainSheet") = some f →
      (f.tabs.map Prod.fst).contains t = true →
      (processSheetData noFail mapping ⟨some u, some t, .arr (r :: rest)⟩
          ft st0).2.trace =
        [.filesList fid (toUpperStr u ++ "_MainSheet"),
         .spreadsheetsGet f.id,
         .valuesAppend f.id t (mapDataToValues (r :: rest))]) ∧
    (∀ f, targetFile st0 fid (toUpperStr u ++ "_MainSheet") = some f →
      (f.tabs.map Prod.fst).contains t = false →
      (processSheetData noFail mapping ⟨some u, some t, .arr (r :: rest)⟩
          ft st0).2.trace =
        [.filesList fid (toUpperStr u ++ "_MainSheet"),
         .spreadsheetsGet f.id, .addSheet f.id t,
         .valuesAppend f.id t [(r.map Prod.fst).map Value.vStr],
         .valuesAppend f.id t (mapDataToValues (r :: rest))]) ∧
    (targetFile st0 fid (toUpperStr u ++ "_MainSheet") = none →
      (processSheetData noFail mapping ⟨some u, some t, .arr (r :: rest)⟩
          ft st0).2.trace =
        [.filesList fid (toUpperStr u ++ "_MainSheet"),
         .filesCreate (toUpperStr u ++ "_MainSheet") fid,
         .spreadsheetsGet (freshId st0), .addSheet (freshId st0) t,
         .valuesAppend (freshId st0) t [(r.map Prod.fst).map Value.vStr],
         .valuesAppend (freshId st0) t (mapDataToValues (r :: rest))]) := by
  have hu' : (u == "") = false := beq_eq_false_iff_ne.mpr hu
  have ht' : (t == "") = false := beq_eq_false_iff_ne.mpr ht
  have hfid' : (fid == "") = false := beq_eq_false_iff_ne.mpr hfid
  refine ⟨?_, ?_, ?_⟩
  · intro f htf hpres
    rw [htf] at hwf
    rw [runFoundPresent noFail mapping u t ft fid r rest st0 f hu' ht'
      hmap hfid' htf hwf hpres rfl rfl rfl]
  · intro f htf hpres
    rw [htf] at hwf
    rw [runFoundAbsentNoFail mapping u t ft fid r rest st0 f hu' ht'
      hmap hfid' htf hwf hpres]
  · intro htf
    rw [htf] at hwf
    rw [runNotFoundNoFail mapping u t ft fid r rest st0 hu' ht' hmap hfid'
      htf hwf]

theorem C8_witness :
    ("user" ≠ "") ∧ ("T" ≠ "") ∧
    ((fun _ => some "FID") "x" = (some "FID" : Option String)) ∧
    ("FID" ≠ "") ∧
    (match targetFile ⟨[], 0⟩ "FID" (toUpperStr "user" ++ "_MainSheet") with
     | some f => findFile ⟨[], 0⟩ f.id = some f
     | none => List.find? (fun g => g.id == freshId ⟨[], 0⟩)
         ([] : List SpreadsheetFile) = none) ∧
    (processSheetData noFail (fun _ => some "FID")
        ⟨some "user", some "T", .arr [[("a", .vInt 1)]]⟩ "x" ⟨[], 0⟩).2.trace =
      [.filesList "FID" (toUpperStr "user" ++ "_MainSheet"),
       .filesCreate (toUpperStr "user" ++ "_MainSheet") "FID",
       .spreadsheetsGet (freshId ⟨[], 0⟩), .addSheet (freshId ⟨[], 0⟩) "T",
       .valuesAppend (freshId ⟨[], 0⟩) "T" [[.vStr "a"]],
       .valuesAppend (freshId ⟨[], 0⟩) "T"
         (mapDataToValues [[("a", .vInt 1)]])] := by
  have h := C8_sequential_call_order (fun _ => some "FID") "user" "T" "x"
    "FID" [("a", .vInt 1)] [] ⟨[], 0⟩ (by decide) (by decide) rfl
    (by decide) rfl
  exact ⟨by decide, by decide, rfl, by decide, rfl, h.2.2 rfl⟩

/-- C10: for every submission that passes validation (so `imageData` is a
non-empty array of records), `extractHeaders` cannot reach its failure
branch — it returns the keys of the first record — and `mapDataToValues`
is total, producing exactly one row per record in submission order, each
row being that record's values in key order. -/
theorem C10_header_extraction_safe (dto : AppendToSheet) (l : List Rec)
    (hv : validData dto.imageData = some l) :
    (∃ hs, extractHeaders l = .ok hs) ∧
    extractHeaders l ≠
      .error ⟨"Failed to extract headers from the data", 500⟩ ∧
    (mapDataToValues l).length = l.length ∧
    (∀ i (hi : i < l.length) (hi2 : i < (mapDataToValues l).length),
      (mapDataToValues l).get ⟨i, hi2⟩ = (l.get ⟨i, hi⟩).map Prod.snd) := by
  obtain ⟨r, rest, rfl⟩ : ∃ r rest, l = r :: rest := by
    cases hidf : dto.imageData with
    | missing => rw [hidf] at hv; exact absurd hv (by simp [validData])
    | notArray => rw [hidf] at hv; exact absurd hv (by simp [validData])
    | arr l2 =>
        rw [hidf] at hv
        cases l2 with
        | nil => exact absurd hv (by simp [validData])
        | cons r rest =>
            refine ⟨r, rest, ?_⟩
            simp only [validData] at hv
            injection hv with h
            exact h.symm
  refine ⟨⟨r.map Prod.fst, rfl⟩, by simp [extractHeaders], by
    simp [mapDataToValues], ?_⟩
  intro i hi hi2
  simp only [List.get_eq_getElem, mapDataToValues]
  rw [List.getElem_map]

theorem C10_witness :
    validData (.arr [[("a", .vInt 1)], [("b", .vInt 2)]]) =
      some [[("a", .vInt 1)], [("b", .vInt 2)]] ∧
    (∃ hs, extractHeaders [[("a", .vInt 1)], [("b", .vInt 2)]] = .ok hs) ∧
    extractHeaders [[("a", .vInt 1)], [("b", .vInt 2)]] ≠
      .error ⟨"Failed to extract headers from the data", 500⟩ ∧
    (mapDataToValues [[("a", .vInt 1)], [("b", .vInt 2)]]).length =
      ([[("a", .vInt 1)], [("b", .vInt 2)]] : List Rec).length := by
  have h := C10_header_extraction_safe
    ⟨some "u", some "T", .arr [[("a", .vInt 1)], [("b", .vInt 2)]]⟩
    [[("a", .vInt 1)], [("b", .vInt 2)]] rfl
  exact ⟨rfl, h.1, h.2.1, h.2.2.1⟩

/-- C6: whenever the controller's `try` block ends in a thrown error — its
own HTTP 400 for an invalid sheet configuration included — the catch-all
converts it to an HTTP 500 with the fixed message, independent of the
original error, so no error detail is reflected to the caller. -/
theorem C6_catch_all_converts_to_500 (cfg : FolderMapping)
    (body : AppendToSheet)
    (ds : AppendToSheet → String → Option String →
      Except HttpException ProcessSheetResponse) (e : HttpException)
    (h : appendToSheetInner cfg body ds = .error e) :
    appendToSheet cfg body ds =
      .error ⟨"An error occurred while processing the request", 500⟩ := by
  unfold appendToSheet
  rw [h]

theorem C6_witness :
    appendToSheetInner ⟨none, none⟩ ⟨some "u", some "Other", .arr []⟩
      (fun _ _ _ => .ok ⟨200, "ok"⟩) =
      .error ⟨"Invalid sheet configuration in FolderMapping", 400⟩ ∧
    appendToSheet ⟨none, none⟩ ⟨some "u", some "Other", .arr []⟩
      (fun _ _ _ => .ok ⟨200, "ok"⟩) =
      .error ⟨"An error occurred while processing the request", 500⟩ :=
  ⟨rfl, C6_catch_all_converts_to_500 ⟨none, none⟩
    ⟨some "u", some "Other", .arr []⟩ (fun _ _ _ => .ok ⟨200, "ok"⟩)
    ⟨"Invalid sheet configuration in FolderMapping", 400⟩ rfl⟩

/-- C9: the controller selects the destination sheet from `imageType`
alone: exactly the string `Farmer` selects `farmCollectorSheet`, every
other value (a missing `imageType` included) selects
`payslipCollectorSheet`, and a falsy selected value makes the `try` block
throw the `Invalid sheet configuration in FolderMapping` HTTP 400. -/
theorem C9_sheet_selected_from_image_type (cfg : FolderMapping)
    (body : AppendToSheet)
    (ds : AppendToSheet → String → Option String →
      Except HttpException ProcessSheetResponse) :
    (body.imageType = some "Farmer" →
      selectSheetId cfg body.imageType = cfg.farmCollectorSheet) ∧
    (body.imageType ≠ some "Farmer" →
      selectSheetId cfg body.imageType = cfg.payslipCollectorSheet) ∧
    (strFalsy (selectSheetId cfg body.imageType) = true →
      appendToSheetInner cfg body ds =
        .error ⟨"Invalid sheet configuration in FolderMapping", 400⟩) := by
  refine ⟨?_, ?_, ?_⟩
  · intro h
    simp [selectSheetId, h]
  · intro h
    have hb : (body.imageType == some "Farmer") = false :=
      beq_eq_false_iff_ne.mpr h
    simp [selectSheetId, hb]
  · intro h
    simp [appendToSheetInner, h]

theorem C9_witness :
    selectSheetId ⟨some "F", some "P"⟩ (some "Farmer") = some "F" ∧
    selectSheetId ⟨some "F", some "P"⟩ (some "Other") = some "P" ∧
    selectSheetId ⟨some "F", some "P"⟩ none = some "P" ∧
    appendToSheetInner ⟨none, some "P"⟩ ⟨some "u", some "Farmer", .arr []⟩
      (fun _ _ _ => .ok ⟨200, "ok"⟩) =
      .error ⟨"Invalid sheet configuration in FolderMapping", 400⟩ := by
  refine ⟨?_, ?_, ?_, ?_⟩
  · exact (C9_sheet_selected_from_image_type ⟨some "F", some "P"⟩
      ⟨some "u", some "Farmer", .arr []⟩ (fun _ _ _ => .ok ⟨200, "ok"⟩)).1 rfl
  · exact (C9_sheet_selected_from_image_type ⟨some "F", some "P"⟩
      ⟨some "u", some "Other", .arr []⟩ (fun _ _ _ => .ok ⟨200, "ok"⟩)).2.1
      (by decide)
  · exact (C9_sheet_selected_from_image_type ⟨some "F", some "P"⟩
      ⟨some "u", none, .arr []⟩ (fun _ _ _ => .ok ⟨200, "ok"⟩)).2.1
      (by decide)
  · exact (C9_sheet_selected_from_image_type ⟨none, some "P"⟩
      ⟨some "u", some "Farmer", .arr []⟩
      (fun _ _ _ => .ok ⟨200, "ok"⟩)).2.2 rfl

end OCR
